import Mathlib

/-!
Shallow embedding of `ActsExamples::VariableSizeMeasurement`
(src/Examples/Framework/include/ActsExamples/EventData/Measurement.hpp).

A measurement stores:
  * `m_subspaceIndices` : a `boost::container::static_vector<uint8_t, kFullSize>`,
    modelled as a `List Nat` (every stored entry is a `uint8_t`, i.e. reduced mod 256);
  * `m_params` : `std::array<Scalar, kFullSize>`, modelled as a `List ℚ` of length `fullSize`;
  * `m_cov` : `std::array<Scalar, kFullSize * kFullSize>`, modelled as a flat `List ℚ`
    of length `fullSize * fullSize` in Eigen's (column-major) layout: the map entry
    `(i, j)` of an `n`-dimensional view lives at flat offset `i + j * n`.
The source link (`m_source`) is an opaque token never interpreted by the class;
it plays no role in any claim and is omitted from the state.
Scalars are `double` in the source; all operations here only move values around
(no floating-point arithmetic is performed), so the scalar type is modelled as `ℚ`.
-/

/-- The state of a `VariableSizeMeasurement` object.  `fullSize` is the
class constant `kFullSize` (the dimension `D` of the full parameter space). -/
structure VariableSizeMeasurement where
  fullSize : Nat
  subspaceIndices : List Nat
  params : List ℚ
  cov : List ℚ
deriving Repr, DecidableEq

/-- Accessor `size()`: `m_subspaceIndices.size()` (Measurement.hpp line 140). -/
def VariableSizeMeasurement.size (m : VariableSizeMeasurement) : Nat :=
  m.subspaceIndices.length

/-- Accessor `contains(i)`: `std::find(begin, end, i) != end` (lines 143-146). -/
def VariableSizeMeasurement.contains (m : VariableSizeMeasurement) (i : Nat) : Bool :=
  m.subspaceIndices.contains i

/-- Accessor `indexOf(i)`: `std::distance(begin, std::find(begin, end, i))` (lines 148-152).
`List.indexOf` returns the position of the first occurrence, and the length of the
list when `i` does not occur, exactly as `std::find`/`std::distance` do.  The
`assert(it != end)` in the source is a debug-only check with no effect on the
returned value when assertions are disabled. -/
def VariableSizeMeasurement.indexOf (m : VariableSizeMeasurement) (i : Nat) : Nat :=
  m.subspaceIndices.indexOf i

/-- The statically-sized parameter view `parameters<dim>()` (lines 175-184):
`Eigen::Map<Matrix<Scalar, dim, 1>>{m_params.data()}`.  Entry `i` of the map is
`m_params[i]`; the template dimension does not enter the addressing of a vector
map.  The `assert(dim == size())` is a debug-only precondition. -/
def VariableSizeMeasurement.parametersStatic (m : VariableSizeMeasurement)
    (_dim i : Nat) : ℚ :=
  m.params.getD i 0

/-- The dynamically-sized parameter view `parameters()` (lines 185-192):
`Eigen::Map<Matrix<Scalar, Dynamic, 1>>{m_params.data(), size()}`.
Entry `i` of the map is `m_params[i]`. -/
def VariableSizeMeasurement.parametersDyn (m : VariableSizeMeasurement) (i : Nat) : ℚ :=
  m.params.getD i 0

/-- The statically-sized covariance view `covariance<dim>()` (lines 194-203):
`Eigen::Map<Matrix<Scalar, dim, dim>>{m_cov.data()}`.  Entry `(i, j)` of a
column-major `dim × dim` map over `m_cov.data()` is `m_cov[i + j * dim]`.
The `assert(dim == size())` is a debug-only precondition. -/
def VariableSizeMeasurement.covarianceStatic (m : VariableSizeMeasurement)
    (dim i j : Nat) : ℚ :=
  m.cov.getD (i + j * dim) 0

/-- The dynamically-sized covariance view `covariance()` (lines 204-213):
`Eigen::Map<Matrix<Scalar, Dynamic, Dynamic>>{m_cov.data(), size(), size()}`.
Entry `(i, j)` is `m_cov[i + j * size()]`. -/
def VariableSizeMeasurement.covarianceDyn (m : VariableSizeMeasurement)
    (i j : Nat) : ℚ :=
  m.cov.getD (i + j * m.size) 0

/-- Writing entry `i` through the statically-sized parameter view
(`parameters<dim>()(i) = v`): stores `v` at `m_params[i]`. -/
def VariableSizeMeasurement.setParameterStatic (m : VariableSizeMeasurement)
    (_dim i : Nat) (v : ℚ) : VariableSizeMeasurement :=
  { m with params := m.params.set i v }

/-- Writing entry `i` through the dynamically-sized parameter view
(`parameters()(i) = v`): stores `v` at `m_params[i]`. -/
def VariableSizeMeasurement.setParameterDyn (m : VariableSizeMeasurement)
    (i : Nat) (v : ℚ) : VariableSizeMeasurement :=
  { m with params := m.params.set i v }

/-- Writing entry `(i, j)` through the statically-sized covariance view
(`covariance<dim>()(i, j) = v`): stores `v` at `m_cov[i + j * dim]`. -/
def VariableSizeMeasurement.setCovarianceStatic (m : VariableSizeMeasurement)
    (dim i j : Nat) (v : ℚ) : VariableSizeMeasurement :=
  { m with cov := m.cov.set (i + j * dim) v }

/-- Writing entry `(i, j)` through the dynamically-sized covariance view
(`covariance()(i, j) = v`): stores `v` at `m_cov[i + j * size()]`. -/
def VariableSizeMeasurement.setCovarianceDyn (m : VariableSizeMeasurement)
    (i j : Nat) (v : ℚ) : VariableSizeMeasurement :=
  { m with cov := m.cov.set (i + j * m.size) v }

/-- The constructor (lines 107-128) for the full dimension `D = kFullSize`.
Inputs: the index array `idx` (length `kSize = n`), the parameter vector `p`
(a `kSize`-vector: entries `p 0, …, p (n-1)` are read) and the covariance
matrix `c` (a `kSize × kSize` matrix: entries `c i j` for `i, j < n` are read);
the `static_assert`s of the source force these dimensions to agree with `kSize`
at compile time, which the function representation reflects.  The body:
  * `m_subspaceIndices` receives `static_cast<uint8_t>(index)` for each input
    index (`std::transform`, lines 120-124), i.e. the value mod 256;
  * `m_params` is zero-initialised (`std::array<Scalar, kFullSize> m_params{}`)
    and then `parameters<kSize>() = params` writes `p i` at offset `i` for `i < n`;
  * `m_cov` is zero-initialised and `covariance<kSize>() = cov` writes `c i j`
    at column-major offset `i + j * n` for `i, j < n`; equivalently, flat offset
    `o < n * n` holds `c (o % n) (o / n)` and every other offset holds `0`.
Capacity: `m_subspaceIndices` is a `boost::container::static_vector` with static
capacity `kFullSize`, so `resize(kSize)` with `kSize > kFullSize` fails at run
time and the source constructor never yields a measurement with more than `D`
indices.  This model is total; every theorem about it therefore carries a
hypothesis bounding the index count by `D` (directly, or via uniqueness of
indices each `< D`), confining the statement to the region where the model and
the program agree. -/
def mkVariableSizeMeasurement (D : Nat) (idx : List Nat) (p : Nat → ℚ)
    (c : Nat → Nat → ℚ) : VariableSizeMeasurement :=
  let n := idx.length
  { fullSize := D
    subspaceIndices := idx.map (fun i => i % 256)
    params := (List.range D).map (fun i => if i < n then p i else 0)
    cov := (List.range (D * D)).map (fun o => if o < n * n then c (o % n) (o / n) else 0) }

/-- One scatter loop: `for (i = 0; i < n; ++i) { r[f i] = g i; }`, acting on a
list-modelled buffer (writes out of range are dropped, which never happens on
the in-contract executions considered below). -/
def scatterLoop (f : Nat → Nat) (g : Nat → ℚ) (n : Nat) (r0 : List ℚ) : List ℚ :=
  (List.range n).foldl (fun r i => r.set (f i) (g i)) r0

/-- Operation `fullParameters()` (lines 215-221):
`result = Zero(); for i in [0, size()): result[m_subspaceIndices[i]] = parameters()[i]`.
The result is a `kFullSize`-vector. -/
def VariableSizeMeasurement.fullParameters (m : VariableSizeMeasurement) : List ℚ :=
  scatterLoop (fun i => m.subspaceIndices.getD i 0) (fun i => m.parametersDyn i)
    m.size (List.replicate m.fullSize 0)

/-- A doubly nested scatter loop:
`for (i = 0; i < ni; ++i) for (j = 0; j < nj; ++j) { r[f i j] = g i j; }`. -/
def scatterLoop2 (f : Nat → Nat → Nat) (g : Nat → Nat → ℚ) (ni nj : Nat)
    (r0 : List ℚ) : List ℚ :=
  (List.range ni).foldl (fun r i => scatterLoop (f i) (g i) nj r) r0

/-- Operation `fullCovariance()` (lines 223-231):
`result = Zero(); for i, j in [0, size())²:
   result(m_subspaceIndices[i], m_subspaceIndices[j]) = covariance()(i, j)`.
The result is a column-major `kFullSize × kFullSize` matrix, stored flat:
entry `(a, b)` lives at offset `a + b * kFullSize`. -/
def VariableSizeMeasurement.fullCovariance (m : VariableSizeMeasurement) : List ℚ :=
  scatterLoop2
    (fun i j => m.subspaceIndices.getD i 0 + m.subspaceIndices.getD j 0 * m.fullSize)
    (fun i j => m.covarianceDyn i j)
    m.size m.size (List.replicate (m.fullSize * m.fullSize) 0)

/-- Entry `(a, b)` of the matrix returned by `fullCovariance()`. -/
def VariableSizeMeasurement.fullCovarianceEntry (m : VariableSizeMeasurement)
    (a b : Nat) : ℚ :=
  m.fullCovariance.getD (a + b * m.fullSize) 0

/-- Modelled from the spec: the dimension of the bound parameter space
(`Acts::eBoundSize`, the value of `kFullSize` for `indices_t = Acts::BoundIndices`).
The definition lives in the Acts core headers, which are not part of this
repository snapshot; the spec's scenario fixes it: "D = 6 (e.g. a 6-dimensional
bound parameter space)". -/
def eBoundSize : Nat := 6

/-- Modelled from the spec: the designated "invalid" sentinel used to pad unused
slots of a fixed-width subspace-index array (`Acts::kSubspaceIndexInvalid`,
defined in the Acts core headers, not in this snapshot).  The spec requires a
designated sentinel distinct from every valid index, representable in the small
unsigned index type (`uint8_t`); Acts uses the maximum value of that type. -/
def kSubspaceIndexInvalid : Nat := 255

/-- Operation `boundSubsetIndices()` (lines 166-173, available only for
`indices_t = Acts::BoundIndices`): start from `Acts::kBoundSubspaceIndicesInvalid`
(a `std::array<uint8_t, eBoundSize>` filled with the invalid sentinel) and
`std::copy` the `size()` stored subspace indices into its head. -/
def VariableSizeMeasurement.boundSubsetIndices (m : VariableSizeMeasurement) : List Nat :=
  (List.range eBoundSize).map (fun i =>
    if i < m.size then m.subspaceIndices.getD i 0 else kSubspaceIndexInvalid)

/-- Helper `makeVariableSizeMeasurement` (lines 256-265): collects the variadic indices
`index0, tailIndices...` into an array (at least one index is required by the
signature) and forwards to the constructor; `n` is inferred as the index count. -/
def makeVariableSizeMeasurement (D : Nat) (p : Nat → ℚ) (c : Nat → Nat → ℚ)
    (index0 : Nat) (tailIndices : List Nat) : VariableSizeMeasurement :=
  mkVariableSizeMeasurement D (index0 :: tailIndices) p c

/-! ### Helper lemmas about list buffers and the scatter loops -/

lemma getD_set_self (l : List ℚ) (i : Nat) (v : ℚ) (h : i < l.length) :
    (l.set i v).getD i 0 = v := by
  rw [List.getD_eq_getElem?_getD, List.getElem?_set_self h]
  rfl

lemma getD_set_ne (l : List ℚ) (i j : Nat) (v : ℚ) (h : i ≠ j) :
    (l.set i v).getD j 0 = l.getD j 0 := by
  rw [List.getD_eq_getElem?_getD, List.getElem?_set_ne h, ← List.getD_eq_getElem?_getD]

lemma scatterLoop_succ (f : Nat → Nat) (g : Nat → ℚ) (k : Nat) (r0 : List ℚ) :
    scatterLoop f g (k + 1) r0 = (scatterLoop f g k r0).set (f k) (g k) := by
  unfold scatterLoop
  rw [List.range_succ, List.foldl_append]
  rfl

lemma scatterLoop_length (f : Nat → Nat) (g : Nat → ℚ) (n : Nat) (r0 : List ℚ) :
    (scatterLoop f g n r0).length = r0.length := by
  induction n with
  | zero => rfl
  | succ k ih => rw [scatterLoop_succ, List.length_set, ih]

lemma scatterLoop_getD_notin (f : Nat → Nat) (g : Nat → ℚ) (n : Nat) (r0 : List ℚ)
    (pos : Nat) (h : ∀ i, i < n → f i ≠ pos) :
    (scatterLoop f g n r0).getD pos 0 = r0.getD pos 0 := by
  induction n with
  | zero => rfl
  | succ k ih =>
      rw [scatterLoop_succ, getD_set_ne _ _ _ _ (h k (by omega))]
      exact ih fun i hi => h i (by omega)

lemma scatterLoop_getD_hit (f : Nat → Nat) (g : Nat → ℚ) (n : Nat) (r0 : List ℚ)
    (k : Nat) (hk : k < n) (hlater : ∀ i, k < i → i < n → f i ≠ f k)
    (hlen : f k < r0.length) :
    (scatterLoop f g n r0).getD (f k) 0 = g k := by
  induction n with
  | zero => omega
  | succ m ih =>
      rw [scatterLoop_succ]
      rcases Nat.lt_or_ge k m with h | h
      · rw [getD_set_ne _ _ _ _ (hlater m (by omega) (by omega))]
        exact ih h fun i hi1 hi2 => hlater i hi1 (by omega)
      · have hkm : k = m := by omega
        subst hkm
        exact getD_set_self _ _ _ (by rw [scatterLoop_length]; exact hlen)

lemma scatterLoop2_succ (f : Nat → Nat → Nat) (g : Nat → Nat → ℚ) (ni nj : Nat)
    (r0 : List ℚ) :
    scatterLoop2 f g (ni + 1) nj r0 =
      scatterLoop (f ni) (g ni) nj (scatterLoop2 f g ni nj r0) := by
  unfold scatterLoop2
  rw [List.range_succ, List.foldl_append]
  rfl

lemma scatterLoop2_length (f : Nat → Nat → Nat) (g : Nat → Nat → ℚ) (ni nj : Nat)
    (r0 : List ℚ) : (scatterLoop2 f g ni nj r0).length = r0.length := by
  induction ni with
  | zero => rfl
  | succ m ih => rw [scatterLoop2_succ, scatterLoop_length, ih]

lemma scatterLoop2_getD_notin (f : Nat → Nat → Nat) (g : Nat → Nat → ℚ)
    (ni nj : Nat) (r0 : List ℚ) (pos : Nat)
    (h : ∀ i, i < ni → ∀ j, j < nj → f i j ≠ pos) :
    (scatterLoop2 f g ni nj r0).getD pos 0 = r0.getD pos 0 := by
  induction ni with
  | zero => rfl
  | succ m ih =>
      rw [scatterLoop2_succ, scatterLoop_getD_notin _ _ _ _ _ (h m (by omega))]
      exact ih fun i hi => h i (by omega)

lemma scatterLoop2_getD_hit (f : Nat → Nat → Nat) (g : Nat → Nat → ℚ)
    (ni nj : Nat) (r0 : List ℚ) (k l : Nat) (hk : k < ni) (hl : l < nj)
    (hinj : ∀ i, i < ni → ∀ j, j < nj → f i j = f k l → i = k ∧ j = l)
    (hlen : f k l < r0.length) :
    (scatterLoop2 f g ni nj r0).getD (f k l) 0 = g k l := by
  induction ni with
  | zero => omega
  | succ m ih =>
      rw [scatterLoop2_succ]
      rcases Nat.lt_or_ge k m with h | h
      · rw [scatterLoop_getD_notin _ _ _ _ _
          (fun j hj hf => absurd (hinj m (by omega) j hj hf).1 (by omega))]
        exact ih h fun i hi j hj hf => hinj i (by omega) j hj hf
      · have hkm : k = m := by omega
        subst hkm
        refine scatterLoop_getD_hit _ _ _ _ _ hl ?_ ?_
        · intro j hj1 hj2 hf
          have := (hinj k (by omega) j hj2 hf).2
          omega
        · rw [scatterLoop2_length]
          exact hlen

/-! ### Facts about the constructed measurement -/

lemma nodup_lt_length_le (idx : List Nat) (D : Nat) (hnd : idx.Nodup)
    (hmem : ∀ x ∈ idx, x < D) : idx.length ≤ D := by
  classical
  have hcard : idx.toFinset.card = idx.length := List.toFinset_card_of_nodup hnd
  have hsub : idx.toFinset ⊆ Finset.range D := by
    intro x hx
    exact Finset.mem_range.mpr (hmem x (List.mem_toFinset.mp hx))
  have := Finset.card_le_card hsub
  rw [hcard, Finset.card_range] at this
  exact this

lemma mk_fullSize (D : Nat) (idx : List Nat) (p : Nat → ℚ) (c : Nat → Nat → ℚ) :
    (mkVariableSizeMeasurement D idx p c).fullSize = D := rfl

lemma mk_subspaceIndices (D : Nat) (idx : List Nat) (p : Nat → ℚ) (c : Nat → Nat → ℚ)
    (hmem : ∀ x ∈ idx, x < 256) :
    (mkVariableSizeMeasurement D idx p c).subspaceIndices = idx := by
  show idx.map (fun i => i % 256) = idx
  conv_rhs => rw [← List.map_id idx]
  exact List.map_congr_left fun x hx => Nat.mod_eq_of_lt (hmem x hx)

lemma mk_size (D : Nat) (idx : List Nat) (p : Nat → ℚ) (c : Nat → Nat → ℚ) :
    (mkVariableSizeMeasurement D idx p c).size = idx.length := by
  show (idx.map (fun i => i % 256)).length = idx.length
  exact List.length_map idx _

lemma mk_params_length (D : Nat) (idx : List Nat) (p : Nat → ℚ) (c : Nat → Nat → ℚ) :
    (mkVariableSizeMeasurement D idx p c).params.length = D := by
  show ((List.range D).map _).length = D
  rw [List.length_map, List.length_range]

lemma mk_cov_length (D : Nat) (idx : List Nat) (p : Nat → ℚ) (c : Nat → Nat → ℚ) :
    (mkVariableSizeMeasurement D idx p c).cov.length = D * D := by
  show ((List.range (D * D)).map _).length = D * D
  rw [List.length_map, List.length_range]

lemma mk_params_getD (D : Nat) (idx : List Nat) (p : Nat → ℚ) (c : Nat → Nat → ℚ)
    (i : Nat) (hi : i < D) :
    (mkVariableSizeMeasurement D idx p c).params.getD i 0 =
      if i < idx.length then p i else 0 := by
  show ((List.range D).map fun i => if i < idx.length then p i else 0).getD i 0 = _
  rw [List.getD_eq_getElem?_getD, List.getElem?_map, List.getElem?_range hi]
  rfl

lemma mk_cov_getD (D : Nat) (idx : List Nat) (p : Nat → ℚ) (c : Nat → Nat → ℚ)
    (o : Nat) (ho : o < D * D) :
    (mkVariableSizeMeasurement D idx p c).cov.getD o 0 =
      if o < idx.length * idx.length then c (o % idx.length) (o / idx.length) else 0 := by
  show ((List.range (D * D)).map fun o =>
    if o < idx.length * idx.length then c (o % idx.length) (o / idx.length) else 0).getD o 0 = _
  rw [List.getD_eq_getElem?_getD, List.getElem?_map, List.getElem?_range ho]
  rfl

lemma offset_lt_sq (i j n : Nat) (hi : i < n) (hj : j < n) : i + j * n < n * n := by
  calc i + j * n < n + j * n := by omega
  _ = (j + 1) * n := by ring
  _ ≤ n * n := Nat.mul_le_mul_right n (by omega)

lemma mk_parametersDyn (D : Nat) (idx : List Nat) (p : Nat → ℚ) (c : Nat → Nat → ℚ)
    (i : Nat) (hi : i < idx.length) (hn : idx.length ≤ D) :
    (mkVariableSizeMeasurement D idx p c).parametersDyn i = p i := by
  rw [VariableSizeMeasurement.parametersDyn, mk_params_getD D idx p c i (by omega)]
  simp [hi]

lemma mk_covarianceDyn (D : Nat) (idx : List Nat) (p : Nat → ℚ) (c : Nat → Nat → ℚ)
    (i j : Nat) (hi : i < idx.length) (hj : j < idx.length) (hn : idx.length ≤ D) :
    (mkVariableSizeMeasurement D idx p c).covarianceDyn i j = c i j := by
  rw [VariableSizeMeasurement.covarianceDyn, mk_size]
  have hoff : i + j * idx.length < idx.length * idx.length := offset_lt_sq _ _ _ hi hj
  have hoffD : i + j * idx.length < D * D :=
    lt_of_lt_of_le hoff (Nat.mul_le_mul hn hn)
  rw [mk_cov_getD D idx p c _ hoffD, if_pos hoff,
    Nat.add_mul_mod_self_right, Nat.add_mul_div_right _ _ (by omega : 0 < idx.length),
    Nat.mod_eq_of_lt hi, Nat.div_eq_of_lt hi, Nat.zero_add]

lemma nodup_getD_ne (idx : List Nat) (hnd : idx.Nodup) (i k : Nat)
    (hi : i < idx.length) (hk : k < idx.length) (hne : i ≠ k) :
    idx.getD i 0 ≠ idx.getD k 0 := by
  rw [List.getD_eq_getElem _ _ hi, List.getD_eq_getElem _ _ hk]
  intro h
  exact hne ((List.Nodup.getElem_inj_iff hnd).mp h)

lemma getD_mem_of_lt (idx : List Nat) (k : Nat) (hk : k < idx.length) :
    idx.getD k 0 ∈ idx := by
  rw [List.getD_eq_getElem _ _ hk]
  exact List.getElem_mem hk

lemma getD_replicate_zero (D j : Nat) : (List.replicate D (0 : ℚ)).getD j 0 = 0 := by
  rw [List.getD_eq_getElem?_getD, List.getElem?_replicate]
  by_cases h : j < D <;> simp [h]

lemma column_major_inj (a b a' b' D : Nat) (ha : a < D) (ha' : a' < D)
    (h : a + b * D = a' + b' * D) : a = a' ∧ b = b' := by
  have h1 : (a + b * D) % D = (a' + b' * D) % D := by rw [h]
  rw [Nat.add_mul_mod_self_right, Nat.add_mul_mod_self_right,
    Nat.mod_eq_of_lt ha, Nat.mod_eq_of_lt ha'] at h1
  subst h1
  refine ⟨rfl, ?_⟩
  exact Nat.eq_of_mul_eq_mul_right (by omega) (by omega : b * D = b' * D)

lemma mk_fullParameters_length (D : Nat) (idx : List Nat) (p : Nat → ℚ)
    (c : Nat → Nat → ℚ) :
    (mkVariableSizeMeasurement D idx p c).fullParameters.length = D := by
  rw [VariableSizeMeasurement.fullParameters, scatterLoop_length,
    List.length_replicate, mk_fullSize]

lemma mk_fullParameters_hit (D : Nat) (idx : List Nat) (p : Nat → ℚ)
    (c : Nat → Nat → ℚ) (hD : D ≤ 256) (hnd : idx.Nodup)
    (hmem : ∀ x ∈ idx, x < D) (k : Nat) (hk : k < idx.length) :
    (mkVariableSizeMeasurement D idx p c).fullParameters.getD (idx.getD k 0) 0 = p k := by
  have hmem256 : ∀ x ∈ idx, x < 256 := fun x hx => lt_of_lt_of_le (hmem x hx) hD
  rw [VariableSizeMeasurement.fullParameters,
    mk_subspaceIndices D idx p c hmem256, mk_size, mk_fullSize]
  rw [scatterLoop_getD_hit _ _ _ _ k hk
    (fun i hi1 hi2 => nodup_getD_ne idx hnd i k hi2 hk (by omega))
    (by rw [List.length_replicate]; exact hmem _ (getD_mem_of_lt idx k hk))]
  exact mk_parametersDyn D idx p c k hk (nodup_lt_length_le idx D hnd hmem)

lemma mk_fullParameters_zero (D : Nat) (idx : List Nat) (p : Nat → ℚ)
    (c : Nat → Nat → ℚ) (hD : D ≤ 256) (hmem : ∀ x ∈ idx, x < D)
    (j : Nat) (hj : j ∉ idx) :
    (mkVariableSizeMeasurement D idx p c).fullParameters.getD j 0 = 0 := by
  have hmem256 : ∀ x ∈ idx, x < 256 := fun x hx => lt_of_lt_of_le (hmem x hx) hD
  rw [VariableSizeMeasurement.fullParameters,
    mk_subspaceIndices D idx p c hmem256, mk_size, mk_fullSize]
  have hnotin : ∀ i, i < idx.length → idx.getD i 0 ≠ j := by
    intro i hi h
    exact hj (h ▸ getD_mem_of_lt idx i hi)
  rw [scatterLoop_getD_notin _ _ _ _ _ hnotin]
  exact getD_replicate_zero D j

lemma mk_fullCovariance_length (D : Nat) (idx : List Nat) (p : Nat → ℚ)
    (c : Nat → Nat → ℚ) :
    (mkVariableSizeMeasurement D idx p c).fullCovariance.length = D * D := by
  rw [VariableSizeMeasurement.fullCovariance, scatterLoop2_length,
    List.length_replicate, mk_fullSize]

lemma mk_fullCovarianceEntry_hit (D : Nat) (idx : List Nat) (p : Nat → ℚ)
    (c : Nat → Nat → ℚ) (hD : D ≤ 256) (hnd : idx.Nodup)
    (hmem : ∀ x ∈ idx, x < D) (k l : Nat) (hk : k < idx.length) (hl : l < idx.length) :
    (mkVariableSizeMeasurement D idx p c).fullCovarianceEntry
      (idx.getD k 0) (idx.getD l 0) = c k l := by
  have hmem256 : ∀ x ∈ idx, x < 256 := fun x hx => lt_of_lt_of_le (hmem x hx) hD
  have hgetlt : ∀ i, i < idx.length → idx.getD i 0 < D :=
    fun i hi => hmem _ (getD_mem_of_lt idx i hi)
  rw [VariableSizeMeasurement.fullCovarianceEntry, VariableSizeMeasurement.fullCovariance,
    mk_subspaceIndices D idx p c hmem256, mk_size, mk_fullSize]
  rw [scatterLoop2_getD_hit _ _ _ _ _ k l hk hl ?hinj ?hlen]
  · exact mk_covarianceDyn D idx p c k l hk hl (nodup_lt_length_le idx D hnd hmem)
  case hinj =>
    intro i hi j hjj h
    obtain ⟨h1, h2⟩ := column_major_inj _ _ _ _ D (hgetlt i hi) (hgetlt k hk) h
    constructor
    · by_contra hne
      exact nodup_getD_ne idx hnd i k hi hk hne h1
    · by_contra hne
      exact nodup_getD_ne idx hnd j l hjj hl hne h2
  case hlen =>
    rw [List.length_replicate]
    exact offset_lt_sq _ _ _ (hgetlt k hk) (hgetlt l hl)

lemma mk_fullCovarianceEntry_zero (D : Nat) (idx : List Nat) (p : Nat → ℚ)
    (c : Nat → Nat → ℚ) (hD : D ≤ 256) (hmem : ∀ x ∈ idx, x < D)
    (a b : Nat) (ha : a < D) (hab : a ∉ idx ∨ b ∉ idx) :
    (mkVariableSizeMeasurement D idx p c).fullCovarianceEntry a b = 0 := by
  have hmem256 : ∀ x ∈ idx, x < 256 := fun x hx => lt_of_lt_of_le (hmem x hx) hD
  have hgetlt : ∀ i, i < idx.length → idx.getD i 0 < D :=
    fun i hi => hmem _ (getD_mem_of_lt idx i hi)
  rw [VariableSizeMeasurement.fullCovarianceEntry, VariableSizeMeasurement.fullCovariance,
    mk_subspaceIndices D idx p c hmem256, mk_size, mk_fullSize]
  have hnotin : ∀ i, i < idx.length → ∀ j, j < idx.length →
      idx.getD i 0 + idx.getD j 0 * D ≠ a + b * D := by
    intro i hi j hjj h
    obtain ⟨h1, h2⟩ := column_major_inj _ _ _ _ D (hgetlt i hi) ha h
    rcases hab with hna | hnb
    · exact hna (h1 ▸ getD_mem_of_lt idx i hi)
    · exact hnb (h2 ▸ getD_mem_of_lt idx j hjj)
  rw [scatterLoop2_getD_notin _ _ _ _ _ _ hnotin]
  exact getD_replicate_zero _ _

/-! ### Claim theorems -/

/-- C1: for a measurement constructed with `n` unique subspace indices `idx`
(each `< D`), local parameters `p`, and covariance `c`, `fullParameters()` is a
`D`-vector `full` with `full[idx[k]] = p k` for every `k < n` and `full[j] = 0`
for every `j < D` not contained in `idx`. -/
theorem C1_fullParameters_scatter (D : Nat) (idx : List Nat) (p : Nat → ℚ)
    (c : Nat → Nat → ℚ) (hD : D ≤ 256) (hnd : idx.Nodup)
    (hmem : ∀ x ∈ idx, x < D) :
    (mkVariableSizeMeasurement D idx p c).fullParameters.length = D ∧
    (∀ k, k < idx.length →
      (mkVariableSizeMeasurement D idx p c).fullParameters.getD (idx.getD k 0) 0 = p k) ∧
    (∀ j, j < D → j ∉ idx →
      (mkVariableSizeMeasurement D idx p c).fullParameters.getD j 0 = 0) :=
  ⟨mk_fullParameters_length D idx p c,
   fun k hk => mk_fullParameters_hit D idx p c hD hnd hmem k hk,
   fun j _ hj => mk_fullParameters_zero D idx p c hD hmem j hj⟩

/-- Witness for C1 at the spec's scenario: `D = 6`, `idx = [0, 2]`,
values `[3/2, -3/10]`. -/
theorem C1_fullParameters_scatter_witness :
    (mkVariableSizeMeasurement 6 [0, 2] (fun k => [(3 : ℚ)/2, -3/10].getD k 0)
      (fun _ _ => 0)).fullParameters.length = 6 ∧
    (∀ k, k < ([0, 2] : List Nat).length →
      (mkVariableSizeMeasurement 6 [0, 2] (fun k => [(3 : ℚ)/2, -3/10].getD k 0)
        (fun _ _ => 0)).fullParameters.getD (([0, 2] : List Nat).getD k 0) 0 =
        [(3 : ℚ)/2, -3/10].getD k 0) ∧
    (∀ j, j < 6 → j ∉ ([0, 2] : List Nat) →
      (mkVariableSizeMeasurement 6 [0, 2] (fun k => [(3 : ℚ)/2, -3/10].getD k 0)
        (fun _ _ => 0)).fullParameters.getD j 0 = 0) :=
  C1_fullParameters_scatter 6 [0, 2] (fun k => [(3 : ℚ)/2, -3/10].getD k 0)
    (fun _ _ => 0) (by decide) (by decide) (by decide)

/-- C2: for a measurement constructed with `n` unique subspace indices `idx`
(each `< D`) and local covariance `c`, `fullCovariance()` is a `D × D` matrix
with entry `(idx[k], idx[l])` equal to `c k l` for all `k, l < n`, and with
every entry in a row or column whose index is not in `idx` equal to zero. -/
theorem C2_fullCovariance_scatter (D : Nat) (idx : List Nat) (p : Nat → ℚ)
    (c : Nat → Nat → ℚ) (hD : D ≤ 256) (hnd : idx.Nodup)
    (hmem : ∀ x ∈ idx, x < D) :
    (mkVariableSizeMeasurement D idx p c).fullCovariance.length = D * D ∧
    (∀ k l, k < idx.length → l < idx.length →
      (mkVariableSizeMeasurement D idx p c).fullCovarianceEntry
        (idx.getD k 0) (idx.getD l 0) = c k l) ∧
    (∀ a b, a < D → b < D → a ∉ idx ∨ b ∉ idx →
      (mkVariableSizeMeasurement D idx p c).fullCovarianceEntry a b = 0) :=
  ⟨mk_fullCovariance_length D idx p c,
   fun k l hk hl => mk_fullCovarianceEntry_hit D idx p c hD hnd hmem k l hk hl,
   fun a b ha _ hab => mk_fullCovarianceEntry_zero D idx p c hD hmem a b ha hab⟩

/-- Witness for C2 at the spec's scenario: `D = 6`, `idx = [0, 2]`,
covariance `[[1/10, 0], [0, 1/5]]`. -/
theorem C2_fullCovariance_scatter_witness :
    (mkVariableSizeMeasurement 6 [0, 2] (fun _ => 0)
      (fun k l => ([[(1 : ℚ)/10, 0], [0, 1/5]].getD k []).getD l 0)).fullCovariance.length =
        6 * 6 ∧
    (∀ k l, k < ([0, 2] : List Nat).length → l < ([0, 2] : List Nat).length →
      (mkVariableSizeMeasurement 6 [0, 2] (fun _ => 0)
        (fun k l => ([[(1 : ℚ)/10, 0], [0, 1/5]].getD k []).getD l 0)).fullCovarianceEntry
        (([0, 2] : List Nat).getD k 0) (([0, 2] : List Nat).getD l 0) =
        ([[(1 : ℚ)/10, 0], [0, 1/5]].getD k []).getD l 0) ∧
    (∀ a b, a < 6 → b < 6 → a ∉ ([0, 2] : List Nat) ∨ b ∉ ([0, 2] : List Nat) →
      (mkVariableSizeMeasurement 6 [0, 2] (fun _ => 0)
        (fun k l => ([[(1 : ℚ)/10, 0], [0, 1/5]].getD k []).getD l 0)).fullCovarianceEntry
        a b = 0) :=
  C2_fullCovariance_scatter 6 [0, 2] (fun _ => 0)
    (fun k l => ([[(1 : ℚ)/10, 0], [0, 1/5]].getD k []).getD l 0)
    (by decide) (by decide) (by decide)

/-- C8: if the local covariance is symmetric then `fullCovariance()` is
symmetric on `[0, D) × [0, D)`. -/
theorem C8_fullCovariance_symmetric (D : Nat) (idx : List Nat) (p : Nat → ℚ)
    (c : Nat → Nat → ℚ) (hD : D ≤ 256) (hnd : idx.Nodup)
    (hmem : ∀ x ∈ idx, x < D)
    (hsym : ∀ k l, k < idx.length → l < idx.length → c k l = c l k) :
    ∀ a b, a < D → b < D →
      (mkVariableSizeMeasurement D idx p c).fullCovarianceEntry a b =
        (mkVariableSizeMeasurement D idx p c).fullCovarianceEntry b a := by
  intro a b ha hb
  by_cases hma : a ∈ idx
  · by_cases hmb : b ∈ idx
    · obtain ⟨k, hk, hka⟩ := List.mem_iff_getElem.mp hma
      obtain ⟨l, hl, hlb⟩ := List.mem_iff_getElem.mp hmb
      have hka' : idx.getD k 0 = a := by rw [List.getD_eq_getElem _ _ hk]; exact hka
      have hlb' : idx.getD l 0 = b := by rw [List.getD_eq_getElem _ _ hl]; exact hlb
      rw [← hka', ← hlb',
        mk_fullCovarianceEntry_hit D idx p c hD hnd hmem k l hk hl,
        mk_fullCovarianceEntry_hit D idx p c hD hnd hmem l k hl hk]
      exact hsym k l hk hl
    · rw [mk_fullCovarianceEntry_zero D idx p c hD hmem a b ha (Or.inr hmb),
        mk_fullCovarianceEntry_zero D idx p c hD hmem b a hb (Or.inl hmb)]
  · rw [mk_fullCovarianceEntry_zero D idx p c hD hmem a b ha (Or.inl hma),
      mk_fullCovarianceEntry_zero D idx p c hD hmem b a hb (Or.inr hma)]

/-- Witness for C8: `D = 6`, `idx = [0, 2]`, the symmetric covariance
`fun k l => (k + l : ℚ)`, at the entry pair `(0, 2)` / `(2, 0)`. -/
theorem C8_fullCovariance_symmetric_witness :
    (mkVariableSizeMeasurement 6 [0, 2] (fun _ => 0)
      (fun k l => (k + l : ℚ))).fullCovarianceEntry 0 2 =
    (mkVariableSizeMeasurement 6 [0, 2] (fun _ => 0)
      (fun k l => (k + l : ℚ))).fullCovarianceEntry 2 0 :=
  C8_fullCovariance_symmetric 6 [0, 2] (fun _ => 0) (fun k l => (k + l : ℚ))
    (by decide) (by decide) (by decide)
    (fun k l _ _ => by push_cast; ring) 0 2 (by decide) (by decide)

/-- C3: for a measurement of size `n`, the statically-sized views
`parameters<n>()` / `covariance<n>()` and the dynamically-sized views
`parameters()` / `covariance()` read equal values element-for-element, and a
value written through either view is observable through the other. -/
theorem C3_views_alias (D : Nat) (idx : List Nat) (p : Nat → ℚ) (c : Nat → Nat → ℚ)
    (_hD : D ≤ 256) (hnd : idx.Nodup) (hmem : ∀ x ∈ idx, x < D)
    (dim i j : Nat) (v w : ℚ)
    (hdim : dim = (mkVariableSizeMeasurement D idx p c).size)
    (hi : i < (mkVariableSizeMeasurement D idx p c).size)
    (hj : j < (mkVariableSizeMeasurement D idx p c).size) :
    ((mkVariableSizeMeasurement D idx p c).parametersStatic dim i =
      (mkVariableSizeMeasurement D idx p c).parametersDyn i) ∧
    ((mkVariableSizeMeasurement D idx p c).covarianceStatic dim i j =
      (mkVariableSizeMeasurement D idx p c).covarianceDyn i j) ∧
    (((mkVariableSizeMeasurement D idx p c).setParameterDyn i v).parametersStatic dim i = v) ∧
    (((mkVariableSizeMeasurement D idx p c).setParameterStatic dim i v).parametersDyn i = v) ∧
    (((mkVariableSizeMeasurement D idx p c).setCovarianceDyn i j w).covarianceStatic dim i j = w) ∧
    (((mkVariableSizeMeasurement D idx p c).setCovarianceStatic dim i j w).covarianceDyn i j = w) := by
  have hsize : (mkVariableSizeMeasurement D idx p c).size = idx.length := mk_size D idx p c
  have hn : idx.length ≤ D := nodup_lt_length_le idx D hnd hmem
  have hplen : (mkVariableSizeMeasurement D idx p c).params.length = D :=
    mk_params_length D idx p c
  have hclen : (mkVariableSizeMeasurement D idx p c).cov.length = D * D :=
    mk_cov_length D idx p c
  have hi' : i < idx.length := by omega
  have hj' : j < idx.length := by omega
  have hoff : i + j * idx.length < D * D :=
    lt_of_lt_of_le (offset_lt_sq i j idx.length hi' hj') (Nat.mul_le_mul hn hn)
  refine ⟨rfl, ?_, ?_, ?_, ?_, ?_⟩
  · rw [VariableSizeMeasurement.covarianceStatic, VariableSizeMeasurement.covarianceDyn, hdim]
  · show ((mkVariableSizeMeasurement D idx p c).params.set i v).getD i 0 = v
    exact getD_set_self _ _ _ (by omega)
  · show ((mkVariableSizeMeasurement D idx p c).params.set i v).getD i 0 = v
    exact getD_set_self _ _ _ (by omega)
  · show ((mkVariableSizeMeasurement D idx p c).cov.set
      (i + j * (mkVariableSizeMeasurement D idx p c).size) w).getD (i + j * dim) 0 = w
    rw [hdim]
    exact getD_set_self _ _ _ (by rw [hclen, hsize]; exact hoff)
  · show ((mkVariableSizeMeasurement D idx p c).cov.set
      (i + j * dim) w).getD (i + j * (mkVariableSizeMeasurement D idx p c).size) 0 = w
    rw [hdim]
    exact getD_set_self _ _ _ (by rw [hclen, hsize]; exact hoff)

/-- Witness for C3: `D = 6`, `idx = [0, 2]`, `dim = 2`, `i = 0`, `j = 1`,
written values `7` and `9`. -/
theorem C3_views_alias_witness :
    ((mkVariableSizeMeasurement 6 [0, 2] (fun _ => 0) (fun _ _ => 0)).parametersStatic 2 0 =
      (mkVariableSizeMeasurement 6 [0, 2] (fun _ => 0) (fun _ _ => 0)).parametersDyn 0) ∧
    ((mkVariableSizeMeasurement 6 [0, 2] (fun _ => 0) (fun _ _ => 0)).covarianceStatic 2 0 1 =
      (mkVariableSizeMeasurement 6 [0, 2] (fun _ => 0) (fun _ _ => 0)).covarianceDyn 0 1) ∧
    (((mkVariableSizeMeasurement 6 [0, 2] (fun _ => 0) (fun _ _ => 0)).setParameterDyn 0
        7).parametersStatic 2 0 = 7) ∧
    (((mkVariableSizeMeasurement 6 [0, 2] (fun _ => 0) (fun _ _ => 0)).setParameterStatic 2 0
        7).parametersDyn 0 = 7) ∧
    (((mkVariableSizeMeasurement 6 [0, 2] (fun _ => 0) (fun _ _ => 0)).setCovarianceDyn 0 1
        9).covarianceStatic 2 0 1 = 9) ∧
    (((mkVariableSizeMeasurement 6 [0, 2] (fun _ => 0) (fun _ _ => 0)).setCovarianceStatic 2 0 1
        9).covarianceDyn 0 1 = 9) :=
  C3_views_alias 6 [0, 2] (fun _ => 0) (fun _ _ => 0) (by decide) (by decide) (by decide)
    2 0 1 7 9 (by decide) (by decide) (by decide)

/-- C4: `contains(i)` holds exactly when `i` occurs in `subspaceIndices()`, and
when it holds, `subspaceIndices()[indexOf(i)] = i`. -/
theorem C4_contains_indexOf (m : VariableSizeMeasurement) (i : Nat)
    (_hi : i < m.fullSize) :
    (m.contains i = true ↔ i ∈ m.subspaceIndices) ∧
    (m.contains i = true → m.subspaceIndices.getD (m.indexOf i) 0 = i) := by
  constructor
  · simp [VariableSizeMeasurement.contains]
  · intro hc
    have hm : i ∈ m.subspaceIndices := by
      simpa [VariableSizeMeasurement.contains] using hc
    rw [VariableSizeMeasurement.indexOf, List.getD_eq_getElem?_getD,
      List.getElem?_eq_getElem (List.indexOf_lt_length.mpr hm)]
    simp [List.getElem_indexOf]

/-- Witness for C4 at a concrete measurement with indices `[0, 2]` and `i = 2`. -/
theorem C4_contains_indexOf_witness :
    ((mkVariableSizeMeasurement 6 [0, 2] (fun _ => 0) (fun _ _ => 0)).contains 2 = true ↔
      2 ∈ (mkVariableSizeMeasurement 6 [0, 2] (fun _ => 0) (fun _ _ => 0)).subspaceIndices) ∧
    ((mkVariableSizeMeasurement 6 [0, 2] (fun _ => 0) (fun _ _ => 0)).contains 2 = true →
      (mkVariableSizeMeasurement 6 [0, 2] (fun _ => 0) (fun _ _ => 0)).subspaceIndices.getD
        ((mkVariableSizeMeasurement 6 [0, 2] (fun _ => 0) (fun _ _ => 0)).indexOf 2) 0 = 2) :=
  C4_contains_indexOf (mkVariableSizeMeasurement 6 [0, 2] (fun _ => 0) (fun _ _ => 0)) 2
    (by decide)

/-- C10: with assertions disabled, `indexOf(i)` on a non-member `i` returns
`size()` (one past the last valid local position). -/
theorem C10_indexOf_notContained (m : VariableSizeMeasurement) (i : Nat)
    (h : m.contains i = false) : m.indexOf i = m.size := by
  have hm : i ∉ m.subspaceIndices := by
    simpa [VariableSizeMeasurement.contains] using h
  rw [VariableSizeMeasurement.indexOf, VariableSizeMeasurement.size]
  exact List.indexOf_eq_length.mpr hm

/-- Witness for C10: the non-member index `5` on a measurement with indices
`[0, 2]` yields position `2 = size()`. -/
theorem C10_indexOf_notContained_witness :
    (mkVariableSizeMeasurement 6 [0, 2] (fun _ => 0) (fun _ _ => 0)).indexOf 5 =
      (mkVariableSizeMeasurement 6 [0, 2] (fun _ => 0) (fun _ _ => 0)).size :=
  C10_indexOf_notContained (mkVariableSizeMeasurement 6 [0, 2] (fun _ => 0) (fun _ _ => 0)) 5
    (by decide)

/-- C6 counterexample: the constructor does not check the index-set invariant.
Constructing with the duplicated index list `[0, 0]` (and `D = 6`) yields a
measurement whose stored subspace index set contains a duplicate, refuting the
claim that every constructed measurement satisfies the invariant. -/
theorem C6_counterexample :
    ¬ ((mkVariableSizeMeasurement 6 [0, 0] (fun _ => 1)
        (fun _ _ => 1)).subspaceIndices.Nodup ∧
      ∀ x ∈ (mkVariableSizeMeasurement 6 [0, 0] (fun _ => 1)
        (fun _ _ => 1)).subspaceIndices, x < 6) := by
  decide

/-- C6 amended: when the constructor's documented precondition holds (the
supplied indices are unique and each `< D`), the stored index set is
duplicate-free with every index `< D`, and the index set is immutable: no
mutating operation (the parameter/covariance view writes) changes it. -/
theorem C6_amended_invariant (D : Nat) (idx : List Nat) (p : Nat → ℚ)
    (c : Nat → Nat → ℚ) (hD : D ≤ 256) (hnd : idx.Nodup)
    (hmem : ∀ x ∈ idx, x < D) :
    (mkVariableSizeMeasurement D idx p c).subspaceIndices.Nodup ∧
    (∀ x ∈ (mkVariableSizeMeasurement D idx p c).subspaceIndices, x < D) ∧
    (∀ i v, ((mkVariableSizeMeasurement D idx p c).setParameterDyn i v).subspaceIndices =
      (mkVariableSizeMeasurement D idx p c).subspaceIndices) ∧
    (∀ dim i v,
      ((mkVariableSizeMeasurement D idx p c).setParameterStatic dim i v).subspaceIndices =
        (mkVariableSizeMeasurement D idx p c).subspaceIndices) ∧
    (∀ i j v, ((mkVariableSizeMeasurement D idx p c).setCovarianceDyn i j v).subspaceIndices =
      (mkVariableSizeMeasurement D idx p c).subspaceIndices) ∧
    (∀ dim i j v,
      ((mkVariableSizeMeasurement D idx p c).setCovarianceStatic dim i j v).subspaceIndices =
        (mkVariableSizeMeasurement D idx p c).subspaceIndices) := by
  have h256 : ∀ x ∈ idx, x < 256 := fun x hx => lt_of_lt_of_le (hmem x hx) hD
  refine ⟨?_, ?_, fun i v => rfl, fun dim i v => rfl, fun i j v => rfl,
    fun dim i j v => rfl⟩
  · rw [mk_subspaceIndices D idx p c h256]
    exact hnd
  · rw [mk_subspaceIndices D idx p c h256]
    exact hmem

/-- Witness for the amended C6 at `D = 6`, `idx = [0, 2]`. -/
theorem C6_amended_invariant_witness :
    (mkVariableSizeMeasurement 6 [0, 2] (fun _ => 0) (fun _ _ => 0)).subspaceIndices.Nodup ∧
    (∀ x ∈ (mkVariableSizeMeasurement 6 [0, 2] (fun _ => 0) (fun _ _ => 0)).subspaceIndices,
      x < 6) ∧
    (∀ i v, ((mkVariableSizeMeasurement 6 [0, 2] (fun _ => 0)
        (fun _ _ => 0)).setParameterDyn i v).subspaceIndices =
      (mkVariableSizeMeasurement 6 [0, 2] (fun _ => 0) (fun _ _ => 0)).subspaceIndices) ∧
    (∀ dim i v, ((mkVariableSizeMeasurement 6 [0, 2] (fun _ => 0)
        (fun _ _ => 0)).setParameterStatic dim i v).subspaceIndices =
      (mkVariableSizeMeasurement 6 [0, 2] (fun _ => 0) (fun _ _ => 0)).subspaceIndices) ∧
    (∀ i j v, ((mkVariableSizeMeasurement 6 [0, 2] (fun _ => 0)
        (fun _ _ => 0)).setCovarianceDyn i j v).subspaceIndices =
      (mkVariableSizeMeasurement 6 [0, 2] (fun _ => 0) (fun _ _ => 0)).subspaceIndices) ∧
    (∀ dim i j v, ((mkVariableSizeMeasurement 6 [0, 2] (fun _ => 0)
        (fun _ _ => 0)).setCovarianceStatic dim i j v).subspaceIndices =
      (mkVariableSizeMeasurement 6 [0, 2] (fun _ => 0) (fun _ _ => 0)).subspaceIndices) :=
  C6_amended_invariant 6 [0, 2] (fun _ => 0) (fun _ _ => 0) (by decide) (by decide)
    (by decide)

/-- C7: `makeVariableSizeMeasurement` with indices `index0, tailIndices...`
produces a measurement whose `size()` is the count of supplied indices, whose
`subspaceIndices()` is exactly the supplied indices in order, and which
satisfies `size() = length(subspaceIndices())`.  The hypothesis `_hcap` is the
`static_vector` capacity bound: with more than `kFullSize` indices the
constructor's `resize` fails at run time and no measurement is produced, so
the claim only speaks below that bound (`hmem` reflects the `uint8_t` index
storage, as elsewhere). -/
theorem C7_makeVariableSizeMeasurement_size (D : Nat) (p : Nat → ℚ)
    (c : Nat → Nat → ℚ) (index0 : Nat) (tailIndices : List Nat)
    (_hcap : (index0 :: tailIndices).length ≤ D)
    (hmem : ∀ x ∈ index0 :: tailIndices, x < 256) :
    (makeVariableSizeMeasurement D p c index0 tailIndices).size =
      (index0 :: tailIndices).length ∧
    ((makeVariableSizeMeasurement D p c index0 tailIndices).subspaceIndices =
      index0 :: tailIndices) ∧
    (makeVariableSizeMeasurement D p c index0 tailIndices).size =
      (makeVariableSizeMeasurement D p c index0 tailIndices).subspaceIndices.length :=
  ⟨mk_size D (index0 :: tailIndices) p c,
   mk_subspaceIndices D (index0 :: tailIndices) p c hmem,
   rfl⟩

/-- Witness for C7 at `D = 6`, indices `1, [3, 4]`. -/
theorem C7_makeVariableSizeMeasurement_size_witness :
    (makeVariableSizeMeasurement 6 (fun _ => 0) (fun _ _ => 0) 1 [3, 4]).size =
      ([1, 3, 4] : List Nat).length ∧
    ((makeVariableSizeMeasurement 6 (fun _ => 0) (fun _ _ => 0) 1 [3, 4]).subspaceIndices =
      [1, 3, 4]) ∧
    (makeVariableSizeMeasurement 6 (fun _ => 0) (fun _ _ => 0) 1 [3, 4]).size =
      (makeVariableSizeMeasurement 6 (fun _ => 0) (fun _ _ => 0) 1 [3, 4]).subspaceIndices.length :=
  C7_makeVariableSizeMeasurement_size 6 (fun _ => 0) (fun _ _ => 0) 1 [3, 4]
    (by decide) (by decide)

/-- C9: for a measurement over the bound parameter-index enumeration
(`D = eBoundSize`), `boundSubsetIndices()` is a fixed array of `eBoundSize`
slots: slot `i` equals `subspaceIndices()[i]` for `i < size()` and every later
slot holds the invalid sentinel. -/
theorem C9_boundSubsetIndices_padded (idx : List Nat) (p : Nat → ℚ)
    (c : Nat → Nat → ℚ) (hnd : idx.Nodup) (hmem : ∀ x ∈ idx, x < eBoundSize) :
    (mkVariableSizeMeasurement eBoundSize idx p c).boundSubsetIndices.length = eBoundSize ∧
    (∀ i, i < (mkVariableSizeMeasurement eBoundSize idx p c).size →
      (mkVariableSizeMeasurement eBoundSize idx p c).boundSubsetIndices.getD i 0 =
        (mkVariableSizeMeasurement eBoundSize idx p c).subspaceIndices.getD i 0) ∧
    (∀ i, (mkVariableSizeMeasurement eBoundSize idx p c).size ≤ i → i < eBoundSize →
      (mkVariableSizeMeasurement eBoundSize idx p c).boundSubsetIndices.getD i 0 =
        kSubspaceIndexInvalid) := by
  have hsize : (mkVariableSizeMeasurement eBoundSize idx p c).size = idx.length :=
    mk_size eBoundSize idx p c
  have hn : idx.length ≤ eBoundSize := nodup_lt_length_le idx eBoundSize hnd hmem
  have hslot : ∀ i, i < eBoundSize →
      (mkVariableSizeMeasurement eBoundSize idx p c).boundSubsetIndices.getD i 0 =
        if i < (mkVariableSizeMeasurement eBoundSize idx p c).size then
          (mkVariableSizeMeasurement eBoundSize idx p c).subspaceIndices.getD i 0
        else kSubspaceIndexInvalid := by
    intro i hilt
    rw [VariableSizeMeasurement.boundSubsetIndices, List.getD_eq_getElem?_getD,
      List.getElem?_map, List.getElem?_range hilt]
    by_cases hcase : i < (mkVariableSizeMeasurement eBoundSize idx p c).size <;>
      simp [hcase]
  refine ⟨?_, ?_, ?_⟩
  · rw [VariableSizeMeasurement.boundSubsetIndices, List.length_map, List.length_range]
  · intro i hilt
    rw [hslot i (by omega), if_pos hilt]
  · intro i hge hilt
    rw [hslot i hilt, if_neg (by omega)]

/-- Witness for C9: indices `[0, 2]` give slots `[0, 2, invalid, invalid,
invalid, invalid]`. -/
theorem C9_boundSubsetIndices_padded_witness :
    (mkVariableSizeMeasurement eBoundSize [0, 2] (fun _ => 0)
      (fun _ _ => 0)).boundSubsetIndices.length = eBoundSize ∧
    (∀ i, i < (mkVariableSizeMeasurement eBoundSize [0, 2] (fun _ => 0) (fun _ _ => 0)).size →
      (mkVariableSizeMeasurement eBoundSize [0, 2] (fun _ => 0)
        (fun _ _ => 0)).boundSubsetIndices.getD i 0 =
      (mkVariableSizeMeasurement eBoundSize [0, 2] (fun _ => 0)
        (fun _ _ => 0)).subspaceIndices.getD i 0) ∧
    (∀ i, (mkVariableSizeMeasurement eBoundSize [0, 2] (fun _ => 0) (fun _ _ => 0)).size ≤ i →
      i < eBoundSize →
      (mkVariableSizeMeasurement eBoundSize [0, 2] (fun _ => 0)
        (fun _ _ => 0)).boundSubsetIndices.getD i 0 = kSubspaceIndexInvalid) :=
  C9_boundSubsetIndices_padded [0, 2] (fun _ => 0) (fun _ _ => 0) (by decide) (by decide)
